import Mathlib

/-!
Verification of the diydashboard Grafana SimpleJson backend.

The HTTP server in `main.go` exposes three behaviours: a catch-all root
handler used as a reachability probe, and a `/query` handler that decodes
a JSON `Query` and answers with either a timeseries or a table response.
The JSON transport (router dispatch, body decoding, response encoding) is
an external collaborator; it is modelled here by explicit dispatch on the
request path, by passing the decode result (`Except String Query`) to the
handler, and by a marshal function that the handler consults.  The wall
clock is modelled as a sequence of readings `clock : Nat → Int`, one per
`time.Now()` call, giving epoch milliseconds.

The `Metric` ring buffer of the companion grada library is not part of
this source tree; it is modelled from the specification further below.
-/

/-- One requested target of a `/query` request (Go struct inside
`Query.Targets`): fields `Target`, `RefID`, `Type`. -/
structure Target where
  target : String
  refId : String
  type : String
deriving DecidableEq, Inhabited

/-- The raw from/to strings of a range (Go anonymous struct `Raw` /
`RangeRaw`). -/
structure RawRange where
  rawFrom : String
  rawTo : String
deriving DecidableEq, Inhabited

/-- The `Range` field of a query (Go: `From`, `To` as `time.Time`, plus the
raw strings).  Instants are modelled as epoch milliseconds. -/
structure QueryRange where
  rangeFrom : Int
  rangeTo : Int
  raw : RawRange
deriving DecidableEq, Inhabited

/-- A `/query` request body, Go struct `Query` in `main.go`. -/
structure Query where
  panelId : Int
  range : QueryRange
  rangeRaw : RawRange
  interval : String
  intervalMs : Int
  targets : List Target
  format : String
  maxDataPoints : Int
deriving DecidableEq, Inhabited

/-- Go struct `TimeseriesResponse`: a target name and datapoints, each
datapoint a two-element list `[value, epoch_ms]` (Go `[][]float64`; the
values occurring in this program are integral, so they are carried as
`Int`). -/
structure TimeseriesResponse where
  target : String
  datapoints : List (List Int)
deriving DecidableEq, Inhabited

/-- Go struct `Column` of a table response. -/
structure Column where
  text : String
  type : String
deriving DecidableEq, Inhabited

/-- One cell of a table row (Go `Row []interface{}` holds strings and
numbers; the numbers in this program are integral). -/
inductive Cell
  | str (s : String)
  | num (n : Int)
deriving DecidableEq, Inhabited

/-- Go struct `TableResponse`. -/
structure TableResponse where
  columns : List Column
  rows : List (List Cell)
  type : String
deriving DecidableEq, Inhabited

/-- What a handler wrote into the response body: nothing, raw text (the
error envelope of `writeError`), or the JSON encoding of one of the two
response shapes. -/
inductive Body
  | empty
  | text (s : String)
  | timeseries (rs : List TimeseriesResponse)
  | table (rs : List TableResponse)
deriving DecidableEq, Inhabited

/-- An HTTP response as observed by the client: status code and body.
A handler that returns without writing a header yields status 200. -/
structure HttpResponse where
  status : Nat
  body : Body
deriving DecidableEq, Inhabited

/-- Outcome of running a handler: either a response reached the client, or
the handler goroutine panicked (net/http recovers the panic; no response
is written). -/
inductive HandlerOutcome
  | response (r : HttpResponse)
  | panicked (msg : String)
deriving DecidableEq, Inhabited

/-- `writeError` of `main.go`: sets status 400 (`http.StatusBadRequest`)
and writes the envelope `{"error": "<context>: <detail>"}`. -/
def writeError (e : String) (m : String) : HttpResponse :=
  { status := 400
    body := .text ("\x7b\"error\": \"" ++ m ++ ": " ++ e ++ "\"\x7d") }

/-- The hardcoded timeseries payload built by `sendTimeseries`: one
response object for `q.Targets[0].Target` with the four fixed values
68, 49, 2, 11, each stamped with its own `time.Now()` reading.
(`sendTimeseries` is only invoked after the handler has already indexed
`Targets[0]`, so `targets` is non-empty whenever this runs.) -/
def timeseriesData (clock : Nat → Int) (q : Query) : List TimeseriesResponse :=
  [{ target := (q.targets.headD default).target
     datapoints :=
       [[68, clock 0], [49, clock 1], [2, clock 2], [11, clock 3]] }]

/-- `sendTimeseries` of `main.go`, with the external JSON encoder passed
in as `marshal`.  On a marshal error the code calls `writeError` and does
not return; the following `w.Write(jsonResp)` writes the nil slice, i.e.
appends nothing, so the client sees exactly the 400 envelope. -/
def sendTimeseriesWith (marshal : List TimeseriesResponse → Except String Body)
    (clock : Nat → Int) (q : Query) : HttpResponse :=
  let response := timeseriesData clock q
  match marshal response with
  | .error e => writeError e "cannot marshal response"
  | .ok b => { status := 200, body := b }

/-- The JSON encoder for the timeseries shape.  `json.Marshal` fails only
on values such as non-finite floats, which cannot occur for this
well-typed data, so the real encoder always succeeds. -/
def marshalTimeseries (rs : List TimeseriesResponse) : Except String Body :=
  .ok (.timeseries rs)

/-- `sendTimeseries` with the real (total) encoder. -/
def sendTimeseries (clock : Nat → Int) (q : Query) : HttpResponse :=
  sendTimeseriesWith marshalTimeseries clock q

/-- The hardcoded table payload built by `sendTable`: fixed column schema
and four fixed rows; nothing of the query is consulted. -/
def tableData (clock : Nat → Int) : List TableResponse :=
  [{ columns := [⟨"Name", "string"⟩, ⟨"Value", "number"⟩, ⟨"Time", "time"⟩]
     rows :=
       [[.str "Alpha", .num 68, .num (clock 0)],
        [.str "Bravo", .num 49, .num (clock 1)],
        [.str "Charlie", .num 2, .num (clock 2)],
        [.str "Delta", .num 11, .num (clock 3)]]
     type := "table" }]

/-- `sendTable` of `main.go`, with the encoder passed in; same error
handling as `sendTimeseries`.  The query argument is unused by the source
beyond logging. -/
def sendTableWith (marshal : List TableResponse → Except String Body)
    (clock : Nat → Int) (_q : Query) : HttpResponse :=
  let response := tableData clock
  match marshal response with
  | .error e => writeError e "cannot marshal response"
  | .ok b => { status := 200, body := b }

/-- The JSON encoder for the table shape (total, as above). -/
def marshalTable (rs : List TableResponse) : Except String Body :=
  .ok (.table rs)

/-- `sendTable` with the real (total) encoder. -/
def sendTable (clock : Nat → Int) (q : Query) : HttpResponse :=
  sendTableWith marshalTable clock q

/-- `queryHandler` of `main.go`.  `parsed` is the result of
`json.Unmarshal` of the request body: an empty or malformed body yields
`.error`, carrying Go's parse error text.  On parse error the handler
replies via `writeError`.  Otherwise it evaluates `query.Targets[0]`,
which panics with an index-out-of-range runtime error when the target
list is missing or empty, and then branches on the first target's type;
Go's `switch` with no default writes nothing for other types, so the
client sees an implicit 200 with empty body. -/
def queryHandler (clock : Nat → Int) (parsed : Except String Query) : HandlerOutcome :=
  match parsed with
  | .error e => .response (writeError e "cannot unmarshal request body")
  | .ok query =>
    match query.targets with
    | [] => .panicked "runtime error: index out of range"
    | t0 :: _ =>
      if t0.type = "timeserie" then .response (sendTimeseries clock query)
      else if t0.type = "table" then .response (sendTable clock query)
      else .response { status := 200, body := .empty }

/-- An incoming HTTP request as the handlers observe it. -/
structure Request where
  method : String
  path : String
  reqBody : String
deriving DecidableEq, Inhabited

/-- The root handler registered in `main` for pattern `"/"`: it logs,
copies the request body to stderr, and answers `200 OK` with no body,
whatever the method, path or body. -/
def rootHandler (_r : Request) : HttpResponse :=
  { status := 200, body := .empty }

/-- The router of `main`: the external `http.ServeMux` dispatches
`"/query"` to `queryHandler` and every other path to the root handler.
`parse` is the JSON decoding of the request body. -/
def serve (clock : Nat → Int) (parse : String → Except String Query)
    (r : Request) : HandlerOutcome :=
  if r.path = "/query" then queryHandler clock (parse r.reqBody)
  else .response (rootHandler r)

/-!
## The Metric ring buffer

The grada library that owns the `Metric` store is not part of this source
tree (only its caller, `diydashboard.go`, is), so the store is modelled
from the specification.
-/

/-- Modelled from the spec: a Sample is an immutable pair
`{value: float64, timestamp: instant}` (§3); values occurring here are
integral and the instant is epoch milliseconds. -/
structure Sample where
  value : Int
  timestamp : Int
deriving DecidableEq, Inhabited

/-- Modelled from the spec: a Metric (§3) holds a fixed `capacity`, an
array-backed circular `buffer` of at most `capacity` samples (§9: one
fixed arena), the `writeCursor` position of the next write slot, and the
`count` of valid samples currently held. -/
structure Metric where
  capacity : Nat
  buffer : Array Sample
  writeCursor : Nat
  count : Nat
deriving DecidableEq, Inhabited

/-- Modelled from the spec: a freshly created metric with the given
capacity — an arena of `capacity` slots, no valid samples, write cursor at
the start.  (Creation via the Registry fails with `InvalidCapacity` for
`capacity ≤ 0`; the claims below assume `0 < capacity`.) -/
def Metric.new (c : Nat) : Metric :=
  { capacity := c
    buffer := Array.mkArray c default
    writeCursor := 0
    count := 0 }

/-- Modelled from the spec: `add(value)` (§4.1) appends a Sample at the
current `writeCursor` — overwriting the oldest sample when
`count == capacity` — advances the cursor circularly, and grows `count`
up to `capacity`.  O(1), no reallocation. -/
def Metric.add (m : Metric) (s : Sample) : Metric :=
  { m with
    buffer := m.buffer.setD m.writeCursor s
    writeCursor := (m.writeCursor + 1) % m.capacity
    count := min (m.count + 1) m.capacity }

/-- Append a whole sequence of samples in order. -/
def Metric.addAll (m : Metric) (l : List Sample) : Metric :=
  l.foldl Metric.add m

/-- The logical start of the buffer: the slot holding the oldest valid
sample. -/
def Metric.startIdx (m : Metric) : Nat :=
  (m.writeCursor + (m.capacity - m.count) + 0) % m.capacity

/-- Modelled from the spec: reading the buffer in logical order, oldest to
newest — the `count` valid samples starting at the slot `count` positions
behind the write cursor (circularly). -/
def Metric.snapshotAll (m : Metric) : List Sample :=
  (List.range m.count).map fun i =>
    m.buffer.getD ((m.writeCursor + (m.capacity - m.count) + i) % m.capacity) default

/-- Modelled from the spec: `snapshot(maxPoints)` (§4.1) returns a
defensive copy of up to `maxPoints` most-recent samples in chronological
order; `none` means no point limit.  Empty when no samples exist. -/
def Metric.snapshot (m : Metric) (maxPoints : Option Nat) : List Sample :=
  match maxPoints with
  | none => m.snapshotAll
  | some k => m.snapshotAll.drop (m.snapshotAll.length - k)

/-- Reading a slot of `setD` at an in-range write position: the written
value at the written slot, the old content elsewhere. -/
theorem getD_setD_cases (a : Array Sample) (i j : Nat) (v d : Sample)
    (hi : i < a.size) :
    (a.setD i v).getD j d = if j = i then v else a.getD j d := by
  have hset : a.setD i v = a.set ⟨i, hi⟩ v := by
    simp [Array.setD, hi]
  rw [hset]
  by_cases hji : j = i
  · subst hji
    rw [Array.getD_eq_get?, Array.get?_set]
    simp
  · rw [if_neg hji, Array.getD_eq_get?, Array.getD_eq_get?,
      Array.getElem?_set_ne a ⟨i, hi⟩ v (Ne.symm hji)]

/-- State of a metric after appending `l` to a fresh metric of positive
capacity `c`: the capacity and arena size are unchanged, `count` and
`writeCursor` track the number of appends, and slot
`(n + (c - n) + i) % c` holds the `i`-th oldest retained sample, which is
element `n - c + i` of `l`. -/
theorem addAll_state (c : Nat) (hc : 0 < c) (l : List Sample) :
    ((Metric.new c).addAll l).capacity = c ∧
    ((Metric.new c).addAll l).buffer.size = c ∧
    ((Metric.new c).addAll l).count = min l.length c ∧
    ((Metric.new c).addAll l).writeCursor = l.length % c ∧
    ∀ i, i < min l.length c →
      ((Metric.new c).addAll l).buffer.getD
          ((l.length + (c - l.length) + i) % c) default
        = l.getD (l.length - c + i) default := by
  induction l using List.reverseRecOn with
  | nil =>
    refine ⟨rfl, by simp [Metric.new, Metric.addAll], by simp [Metric.new, Metric.addAll],
      by simp [Metric.new, Metric.addAll], ?_⟩
    intro i hi
    simp at hi
  | append_singleton l x ih =>
    obtain ⟨hcap, hsize, hcount, hwc, hbuf⟩ := ih
    have hstep : (Metric.new c).addAll (l ++ [x])
        = ((Metric.new c).addAll l).add x := by
      simp [Metric.addAll, List.foldl_append]
    set m := (Metric.new c).addAll l with hm
    set n := l.length with hn
    rw [hstep]
    have hlen : (l ++ [x]).length = n + 1 := by simp [hn]
    refine ⟨by simp [Metric.add, hcap], ?_, ?_, ?_, ?_⟩
    · simp [Metric.add, Array.size_setD, hsize]
    · simp only [Metric.add, hcount, hcap, hlen]
      omega
    · simp only [Metric.add, hwc, hcap, hlen]
      exact Nat.mod_add_mod n c 1 ▸ rfl
    · intro i hi
      rw [hlen] at hi ⊢
      have hwclt : m.writeCursor < c := by
        rw [hwc]; exact Nat.mod_lt _ hc
      have hsize' : m.writeCursor < m.buffer.size := by
        rw [hsize]; exact hwclt
      have hbufset : (m.add x).buffer = m.buffer.setD m.writeCursor x := rfl
      rw [hbufset]
      rw [getD_setD_cases _ _ _ _ _ hsize']
      by_cases hcase : n < c
      · -- buffer not yet full before this append
        have hmin : min (n + 1) c = n + 1 := by omega
        rw [hmin] at hi
        have hidx : (n + 1 + (c - (n + 1)) + i) % c = i := by
          have h1 : n + 1 + (c - (n + 1)) = c := by omega
          rw [h1, Nat.add_mod_left]
          exact Nat.mod_eq_of_lt (by omega)
        rw [hidx, hwc]
        have hnc : n % c = n := Nat.mod_eq_of_lt hcase
        rw [hnc]
        have hsub : n + 1 - c = 0 := by omega
        rw [hsub]
        by_cases hin : i = n
        · subst hin
          rw [if_pos rfl, Nat.zero_add, hn,
            List.getD_append_right l [x] default l.length (Nat.le_refl _)]
          simp
        · rw [if_neg hin]
          have hilt : i < n := by omega
          have hidx' : (n + (c - n) + i) % c = i := by
            have h1 : n + (c - n) = c := by omega
            rw [h1, Nat.add_mod_left]
            exact Nat.mod_eq_of_lt (by omega)
          have hb := hbuf i (by omega)
          rw [hidx'] at hb
          rw [hb]
          have hsub' : n - c = 0 := by omega
          rw [hsub', Nat.zero_add]
          rw [List.getD_append l [x] default i (by omega)]
      · -- buffer already full: the oldest sample is overwritten
        push_neg at hcase
        have hmin : min (n + 1) c = c := by omega
        rw [hmin] at hi
        have hsubz : c - (n + 1) = 0 := by omega
        rw [hsubz]
        by_cases hlast : i = c - 1
        · subst hlast
          have hidx : (n + 1 + 0 + (c - 1)) % c = n % c := by
            have h1 : n + 1 + 0 + (c - 1) = n + c := by omega
            rw [h1, Nat.add_mod_right]
          rw [hidx, hwc, if_pos rfl]
          have h2 : n + 1 - c + (c - 1) = n := by omega
          rw [h2, hn,
            List.getD_append_right l [x] default l.length (Nat.le_refl _)]
          simp
        · have hilt : i + 1 < c := by omega
          have hne : (n + 1 + 0 + i) % c ≠ n % c := by
            have h1 : n + 1 + 0 + i = n + (i + 1) := by omega
            rw [h1]
            intro hcontra
            have hmodeq : n % c = (n + (i + 1)) % c := hcontra.symm
            have hdvd : c ∣ n + (i + 1) - n :=
              (Nat.modEq_iff_dvd' (Nat.le_add_right n (i + 1))).mp hmodeq
            rw [Nat.add_sub_cancel_left] at hdvd
            have := Nat.le_of_dvd (by omega) hdvd
            omega
          rw [hwc, if_neg hne]
          have hb := hbuf (i + 1) (by omega)
          have hidxeq : n + (c - n) + (i + 1) = n + 1 + 0 + i := by omega
          rw [hidxeq] at hb
          rw [hb]
          have h3 : n - c + (i + 1) = n + 1 - c + i := by omega
          rw [h3]
          rw [List.getD_append l [x] default _ (by omega)]

/-- The snapshot of a fresh metric of capacity `c` after appending `l` is
exactly the suffix of `l` of length `min l.length c`. -/
theorem snapshotAll_addAll (c : Nat) (hc : 0 < c) (l : List Sample) :
    ((Metric.new c).addAll l).snapshotAll = l.drop (l.length - c) := by
  obtain ⟨hcap, hsize, hcount, hwc, hbuf⟩ := addAll_state c hc l
  set m := (Metric.new c).addAll l with hm
  set n := l.length with hn
  apply List.ext_getElem
  · simp [Metric.snapshotAll, hcount]
    omega
  · intro i h1 h2
    simp only [Metric.snapshotAll, List.getElem_map, List.getElem_range,
      List.getElem_drop]
    have hilt : i < min n c := by
      simp [Metric.snapshotAll, hcount] at h1
      omega
    have hidx : (m.writeCursor + (m.capacity - m.count) + i) % m.capacity
        = (n + (c - n) + i) % c := by
      rw [hwc, hcap, hcount]
      have h4 : c - min n c = c - n := by omega
      rw [h4, Nat.add_assoc, Nat.mod_add_mod, ← Nat.add_assoc]
    rw [hidx]
    have hb := hbuf i hilt
    rw [hb]
    rw [List.getD_eq_getElem _ _ (by omega)]

/-- The number of retained samples after `n` appends into capacity `c`. -/
theorem snapshotAll_length (c : Nat) (hc : 0 < c) (l : List Sample) :
    ((Metric.new c).addAll l).snapshotAll.length = min l.length c := by
  rw [snapshotAll_addAll c hc l]
  simp
  omega

/-!
## Helper lemmas about the query handler
-/

/-- How many response objects a body carries. -/
def Body.objCount : Body → Nat
  | .timeseries rs => rs.length
  | .table rs => rs.length
  | .empty => 0
  | .text _ => 0

/-- A well-formed query whose first target has type `"timeserie"` always
yields the single hardcoded timeseries object, labelled with the first
target's name. -/
theorem queryHandler_timeserie_eq (clock : Nat → Int) (q : Query) (t0 : Target)
    (rest : List Target) (h : q.targets = t0 :: rest) (hty : t0.type = "timeserie") :
    queryHandler clock (.ok q) =
      .response ⟨200, .timeseries
        [⟨t0.target, [[68, clock 0], [49, clock 1], [2, clock 2], [11, clock 3]]⟩]⟩ := by
  simp only [queryHandler, h, hty, reduceIte, sendTimeseries, sendTimeseriesWith,
    timeseriesData, marshalTimeseries, List.headD_cons]

/-- A well-formed query whose first target has type `"table"` always
yields the single hardcoded table object; the query is not consulted. -/
theorem queryHandler_table_eq (clock : Nat → Int) (q : Query) (t0 : Target)
    (rest : List Target) (h : q.targets = t0 :: rest) (hty : t0.type = "table") :
    queryHandler clock (.ok q) = .response ⟨200, .table (tableData clock)⟩ := by
  simp only [queryHandler, h, hty, reduceIte, sendTable, sendTableWith, marshalTable]
  rw [if_neg (by decide)]

/-- A well-formed query whose first target has any other type leaves the
switch without writing: the client sees an implicit `200` with empty
body. -/
theorem queryHandler_other_eq (clock : Nat → Int) (q : Query) (t0 : Target)
    (rest : List Target) (h : q.targets = t0 :: rest)
    (h1 : t0.type ≠ "timeserie") (h2 : t0.type ≠ "table") :
    queryHandler clock (.ok q) = .response ⟨200, Body.empty⟩ := by
  simp only [queryHandler, h, if_neg h1, if_neg h2]

/-!
## Concrete requests for the witnesses and counterexamples
-/

/-- A query with every field defaulted; the individual scenarios override
`targets` (and occasionally other fields). -/
def baseQuery : Query :=
  { panelId := 0
    range := { rangeFrom := 0, rangeTo := 0, raw := { rawFrom := "", rawTo := "" } }
    rangeRaw := { rawFrom := "", rawTo := "" }
    interval := ""
    intervalMs := 0
    targets := []
    format := ""
    maxDataPoints := 0 }

/-- The end-to-end scenario's query: one target `"CPU1"` of type
`"timeserie"`. -/
def qCPU1 : Query := { baseQuery with targets := [⟨"CPU1", "A", "timeserie"⟩] }

/-- A query for the unregistered target name `"CPU9"`. -/
def qCPU9 : Query := { baseQuery with targets := [⟨"CPU9", "A", "timeserie"⟩] }

/-- A query with two targets. -/
def qTwoTargets : Query :=
  { baseQuery with targets := [⟨"CPU1", "A", "timeserie"⟩, ⟨"CPU2", "B", "timeserie"⟩] }

/-- A query for `"CPU1"` in table format. -/
def qTable : Query := { baseQuery with targets := [⟨"CPU1", "A", "table"⟩] }

/-- A query whose first target requests an unsupported format. -/
def qBadType : Query := { baseQuery with targets := [⟨"CPU1", "A", "heatmap"⟩] }

/-- The sample sequence of the end-to-end scenario: values 68, 49, 2, 11
at strictly increasing timestamps. -/
def demoSamples : List Sample := [⟨68, 1⟩, ⟨49, 2⟩, ⟨2, 3⟩, ⟨11, 4⟩]


/-!
## The claims
-/

/-- C1: for every capacity `c > 0` and every sequence `l` of samples
appended via `add`, `snapshot` with no point limit returns exactly
`min l.length c` samples, and they equal the most recent
`min l.length c` appended samples, in append order. -/
theorem c1_snapshot_most_recent (c : Nat) (hc : 0 < c) (l : List Sample) :
    ((Metric.new c).addAll l).snapshot none
        = l.drop (l.length - min l.length c) ∧
    (((Metric.new c).addAll l).snapshot none).length = min l.length c := by
  have h := snapshotAll_addAll c hc l
  have hlen := snapshotAll_length c hc l
  have hdrop : l.length - min l.length c = l.length - c := by omega
  constructor
  · show ((Metric.new c).addAll l).snapshotAll = _
    rw [h, hdrop]
  · show ((Metric.new c).addAll l).snapshotAll.length = _
    exact hlen

/-- Witness for C1: capacity 3, the four scenario samples; the snapshot
is the last three samples, 68 evicted. -/
theorem c1_snapshot_most_recent_witness :
    0 < 3 ∧
    (((Metric.new 3).addAll demoSamples).snapshot none
        = demoSamples.drop (demoSamples.length - min demoSamples.length 3) ∧
     (((Metric.new 3).addAll demoSamples).snapshot none).length
        = min demoSamples.length 3) :=
  ⟨by decide, c1_snapshot_most_recent 3 (by decide) demoSamples⟩

/-- C2 counterexample: for the `"CPU1"` timeserie query the handler
returns four datapoints — the value 68 among them, not evicted — rather
than the three pairs the claim requires, and with a single clock reading
all four timestamps coincide instead of strictly increasing. -/
theorem c2_counterexample :
    queryHandler (fun _ => 1000) (.ok qCPU1) =
      .response ⟨200, .timeseries
        [⟨"CPU1", [[68, 1000], [49, 1000], [2, 1000], [11, 1000]]⟩]⟩ ∧
    ([[68, 1000], [49, 1000], [2, 1000], [11, 1000]] : List (List Int)).length ≠ 3 :=
  ⟨by decide, by decide⟩

/-- C2 (amended): a `/query` request whose first target is `"CPU1"` with
type `"timeserie"` returns exactly one object with target `"CPU1"` whose
datapoints are the four fixed pairs `[68,t1],[49,t2],[2,t3],[11,t4]`, the
timestamps being the handler's four clock readings — independent of any
metric creation or added values, which the handler never consults. -/
theorem c2_fixed_response (clock : Nat → Int) (q : Query) (t0 : Target)
    (rest : List Target) (h : q.targets = t0 :: rest)
    (hname : t0.target = "CPU1") (hty : t0.type = "timeserie") :
    queryHandler clock (.ok q) =
      .response ⟨200, .timeseries
        [⟨"CPU1", [[68, clock 0], [49, clock 1], [2, clock 2], [11, clock 3]]⟩]⟩ := by
  rw [queryHandler_timeserie_eq clock q t0 rest h hty, hname]

/-- Witness for C2 (amended) at the concrete scenario query. -/
theorem c2_fixed_response_witness :
    queryHandler (fun _ => 1000) (.ok qCPU1) =
      .response ⟨200, .timeseries
        [⟨"CPU1", [[68, 1000], [49, 1000], [2, 1000], [11, 1000]]⟩]⟩ :=
  c2_fixed_response (fun _ => 1000) qCPU1 ⟨"CPU1", "A", "timeserie"⟩ [] rfl rfl rfl

/-- C3 counterexample: a query for the unregistered target `"CPU9"`
succeeds with status 200 and emits the hardcoded data — it is not
rejected with a client-error naming `"CPU9"`. -/
theorem c3_counterexample :
    queryHandler (fun _ => 5) (.ok qCPU9) =
      .response ⟨200, .timeseries
        [⟨"CPU9", [[68, 5], [49, 5], [2, 5], [11, 5]]⟩]⟩ := by
  decide

/-- C3 (amended): the handler performs no registry lookup at all: a
`/query` request naming any target — registered or not — whose type is
`"timeserie"` succeeds with status 200 and the fixed datapoints labelled
with the requested name; no error response and no all-or-nothing check
exist. -/
theorem c3_no_registry_lookup (clock : Nat → Int) (q : Query) (t0 : Target)
    (rest : List Target) (h : q.targets = t0 :: rest) (hty : t0.type = "timeserie") :
    queryHandler clock (.ok q) =
      .response ⟨200, .timeseries
        [⟨t0.target, [[68, clock 0], [49, clock 1], [2, clock 2], [11, clock 3]]⟩]⟩ :=
  queryHandler_timeserie_eq clock q t0 rest h hty

/-- Witness for C3 (amended) at the `"CPU9"` query. -/
theorem c3_no_registry_lookup_witness :
    queryHandler (fun _ => 9) (.ok qCPU9) =
      .response ⟨200, .timeseries
        [⟨"CPU9", [[68, 9], [49, 9], [2, 9], [11, 9]]⟩]⟩ :=
  c3_no_registry_lookup (fun _ => 9) qCPU9 ⟨"CPU9", "A", "timeserie"⟩ [] rfl rfl

/-- C4 counterexample: a first target of type `"heatmap"` — neither
`"timeserie"` nor `"table"` — succeeds with status 200 and an empty
response body instead of failing with an UnsupportedFormat error. -/
theorem c4_counterexample :
    queryHandler (fun _ => 0) (.ok qBadType) = .response ⟨200, Body.empty⟩ := by
  decide

/-- C4 (amended): for every `/query` request whose first target's type is
neither `"timeserie"` nor `"table"`, the switch falls through without
writing and the request succeeds with an implicit 200 and empty body; no
UnsupportedFormat error exists in the code. -/
theorem c4_unsupported_silent_ok (clock : Nat → Int) (q : Query) (t0 : Target)
    (rest : List Target) (h : q.targets = t0 :: rest)
    (h1 : t0.type ≠ "timeserie") (h2 : t0.type ≠ "table") :
    queryHandler clock (.ok q) = .response ⟨200, Body.empty⟩ :=
  queryHandler_other_eq clock q t0 rest h h1 h2

/-- Witness for C4 (amended) at the `"heatmap"` query. -/
theorem c4_unsupported_silent_ok_witness :
    queryHandler (fun _ => 0) (.ok qBadType) = .response ⟨200, Body.empty⟩ :=
  c4_unsupported_silent_ok (fun _ => 0) qBadType ⟨"CPU1", "A", "heatmap"⟩ []
    rfl (by decide) (by decide)

/-- C5 counterexample: a parseable body with an empty target list (for
example the JSON body `\x7b\x7d`) makes the handling task panic on
`Targets[0]` — it is not answered with a MalformedRequest client-error
response. -/
theorem c5_counterexample :
    queryHandler (fun _ => 0) (.ok baseQuery)
      = .panicked "runtime error: index out of range" := by
  decide

/-- C5 (amended): an empty or unparseable body fails fast with a 400
client-error echoing the parse error text (never a server-error status);
but a parseable body whose target list is missing or empty makes the
handling task panic with an index-out-of-range error instead of a
MalformedRequest response. -/
theorem c5_parse_errors_only (clock : Nat → Int) (e : String) (q : Query)
    (hq : q.targets = []) :
    queryHandler clock (.error e)
        = .response (writeError e "cannot unmarshal request body") ∧
    (writeError e "cannot unmarshal request body").status = 400 ∧
    queryHandler clock (.ok q) = .panicked "runtime error: index out of range" := by
  refine ⟨rfl, rfl, ?_⟩
  simp only [queryHandler, hq]

/-- Witness for C5 (amended): Go's parse error for an empty body, and the
empty-target-list query. -/
theorem c5_parse_errors_only_witness :
    queryHandler (fun _ => 0) (.error "unexpected end of JSON input")
        = .response (writeError "unexpected end of JSON input"
            "cannot unmarshal request body") ∧
    (writeError "unexpected end of JSON input"
        "cannot unmarshal request body").status = 400 ∧
    queryHandler (fun _ => 0) (.ok baseQuery)
        = .panicked "runtime error: index out of range" :=
  c5_parse_errors_only (fun _ => 0) "unexpected end of JSON input" baseQuery rfl

/-- C6 counterexample: a request with two targets receives a response
with a single object (for the first target only), not one object per
requested target. -/
theorem c6_counterexample :
    qTwoTargets.targets.length = 2 ∧
    queryHandler (fun _ => 3) (.ok qTwoTargets) =
      .response ⟨200, .timeseries
        [⟨"CPU1", [[68, 3], [49, 3], [2, 3], [11, 3]]⟩]⟩ ∧
    (Body.timeseries [⟨"CPU1", [[68, 3], [49, 3], [2, 3], [11, 3]]⟩]).objCount ≠ 2 :=
  ⟨by decide, by decide, by decide⟩

/-- C6 (amended): every successful `/query` response contains exactly one
response object — the one for the first target — regardless of how many
targets the request listed. -/
theorem c6_single_object (clock : Nat → Int) (q : Query) (t0 : Target)
    (rest : List Target) (h : q.targets = t0 :: rest)
    (ht : t0.type = "timeserie" ∨ t0.type = "table") :
    ∃ r : HttpResponse, queryHandler clock (.ok q) = .response r ∧
      r.body.objCount = 1 := by
  cases ht with
  | inl h1 => exact ⟨_, queryHandler_timeserie_eq clock q t0 rest h h1, rfl⟩
  | inr h1 => exact ⟨_, queryHandler_table_eq clock q t0 rest h h1, rfl⟩

/-- Witness for C6 (amended) at the two-target query. -/
theorem c6_single_object_witness :
    ∃ r : HttpResponse, queryHandler (fun _ => 3) (.ok qTwoTargets) = .response r ∧
      r.body.objCount = 1 :=
  c6_single_object (fun _ => 3) qTwoTargets ⟨"CPU1", "A", "timeserie"⟩
    [⟨"CPU2", "B", "timeserie"⟩] rfl (Or.inl rfl)

/-- C7 counterexample: the table response for a `"CPU1"` query carries
the fixed rows named Alpha, Bravo, Charlie, Delta — not rows listing the
queried metric's name `"CPU1"`. -/
theorem c7_counterexample :
    queryHandler (fun _ => 7) (.ok qTable) =
      .response ⟨200, .table
        [⟨[⟨"Name", "string"⟩, ⟨"Value", "number"⟩, ⟨"Time", "time"⟩],
          [[.str "Alpha", .num 68, .num 7], [.str "Bravo", .num 49, .num 7],
           [.str "Charlie", .num 2, .num 7], [.str "Delta", .num 11, .num 7]],
          "table"⟩]⟩ ∧
    Cell.str "Alpha" ≠ Cell.str "CPU1" :=
  ⟨by decide, by decide⟩

/-- C7 (amended): a `/query` request with a first target of type
`"table"` receives one object with the fixed column schema
(`Name:string`, `Value:number`, `Time:time`) and the four fixed rows
Alpha/68, Bravo/49, Charlie/2, Delta/11 with the handler's clock
readings — independent of the queried metric and of any sample store. -/
theorem c7_table_fixed_rows (clock : Nat → Int) (q : Query) (t0 : Target)
    (rest : List Target) (h : q.targets = t0 :: rest) (hty : t0.type = "table") :
    queryHandler clock (.ok q) =
      .response ⟨200, .table
        [⟨[⟨"Name", "string"⟩, ⟨"Value", "number"⟩, ⟨"Time", "time"⟩],
          [[.str "Alpha", .num 68, .num (clock 0)],
           [.str "Bravo", .num 49, .num (clock 1)],
           [.str "Charlie", .num 2, .num (clock 2)],
           [.str "Delta", .num 11, .num (clock 3)]],
          "table"⟩]⟩ :=
  queryHandler_table_eq clock q t0 rest h hty

/-- Witness for C7 (amended) at the concrete table query. -/
theorem c7_table_fixed_rows_witness :
    queryHandler (fun _ => 7) (.ok qTable) =
      .response ⟨200, .table
        [⟨[⟨"Name", "string"⟩, ⟨"Value", "number"⟩, ⟨"Time", "time"⟩],
          [[.str "Alpha", .num 68, .num 7], [.str "Bravo", .num 49, .num 7],
           [.str "Charlie", .num 2, .num 7], [.str "Delta", .num 11, .num 7]],
          "table"⟩]⟩ :=
  c7_table_fixed_rows (fun _ => 7) qTable ⟨"CPU1", "A", "table"⟩ [] rfl rfl

/-- C8 counterexample: when the encoder fails, the failure is surfaced
with status 400 — a client-error, not a server-error status. -/
theorem c8_counterexample :
    (sendTimeseriesWith (fun _ => .error "boom") (fun _ => 0) qCPU1).status = 400 ∧
    ¬ 500 ≤ (sendTimeseriesWith (fun _ => .error "boom") (fun _ => 0) qCPU1).status :=
  ⟨rfl, by decide⟩

/-- C8 (amended): whenever encoding a timeseries response fails, the
failure is surfaced via `writeError` as a client-error status 400 with
the error text in the envelope; the handling task does not panic, and
nothing is written after the error envelope (the trailing write of the
nil encoding appends nothing). -/
theorem c8_marshal_error_handling
    (marshal : List TimeseriesResponse → Except String Body)
    (clock : Nat → Int) (q : Query) (e : String)
    (h : marshal (timeseriesData clock q) = .error e) :
    sendTimeseriesWith marshal clock q = writeError e "cannot marshal response" ∧
    (writeError e "cannot marshal response").status = 400 := by
  refine ⟨?_, rfl⟩
  show (match marshal (timeseriesData clock q) with
        | .error e' => writeError e' "cannot marshal response"
        | .ok b => ({ status := 200, body := b } : HttpResponse)) = _
  rw [h]

/-- Witness for C8 (amended) with an always-failing encoder. -/
theorem c8_marshal_error_handling_witness :
    sendTimeseriesWith (fun _ => .error "boom") (fun _ => 0) qCPU1
        = writeError "boom" "cannot marshal response" ∧
    (writeError "boom" "cannot marshal response").status = 400 :=
  c8_marshal_error_handling (fun _ => .error "boom") (fun _ => 0) qCPU1 "boom" rfl

/-- C9: the root handler answers every request — any method, any path
other than `/query`, any body — with status 200 and an empty response
body. -/
theorem c9_root_always_ok (clock : Nat → Int) (parse : String → Except String Query)
    (r : Request) (h : r.path ≠ "/query") :
    serve clock parse r = .response ⟨200, Body.empty⟩ := by
  simp only [serve, if_neg h, rootHandler]

/-- Witness for C9 at a PUT to an arbitrary path with a junk body. -/
theorem c9_root_always_ok_witness :
    serve (fun _ => 0) (fun _ => Except.error "nope") ⟨"PUT", "/metrics", "junk"⟩
      = .response ⟨200, Body.empty⟩ :=
  c9_root_always_ok (fun _ => 0) (fun _ => Except.error "nope")
    ⟨"PUT", "/metrics", "junk"⟩ (by decide)

/-- C10: with the clock held fixed, the `/query` response depends only on
the first target's name and type: two well-formed queries with equal
first targets produce identical responses, whatever their further
targets, time range or maxDataPoints. -/
theorem c10_first_target_determines (clock : Nat → Int) (q1 q2 : Query)
    (t1 t2 : Target) (r1 r2 : List Target)
    (h1 : q1.targets = t1 :: r1) (h2 : q2.targets = t2 :: r2)
    (hname : t1.target = t2.target) (hty : t1.type = t2.type) :
    queryHandler clock (.ok q1) = queryHandler clock (.ok q2) := by
  by_cases hts : t1.type = "timeserie"
  · rw [queryHandler_timeserie_eq clock q1 t1 r1 h1 hts,
      queryHandler_timeserie_eq clock q2 t2 r2 h2 (hty.symm.trans hts), hname]
  · by_cases htt : t1.type = "table"
    · rw [queryHandler_table_eq clock q1 t1 r1 h1 htt,
        queryHandler_table_eq clock q2 t2 r2 h2 (hty.symm.trans htt)]
    · rw [queryHandler_other_eq clock q1 t1 r1 h1 hts htt,
        queryHandler_other_eq clock q2 t2 r2 h2
          (fun hcon => hts (hty.trans hcon)) (fun hcon => htt (hty.trans hcon))]

/-- A query sharing `qCPU1`'s first target name and type but differing in
refId, extra targets, time range, interval and maxDataPoints. -/
def qCPU1Other : Query :=
  { panelId := 42
    range := { rangeFrom := 100, rangeTo := 200,
               raw := { rawFrom := "now-5m", rawTo := "now" } }
    rangeRaw := { rawFrom := "now-5m", rawTo := "now" }
    interval := "5s"
    intervalMs := 5000
    targets := [⟨"CPU1", "Z", "timeserie"⟩, ⟨"CPU2", "B", "table"⟩]
    format := "json"
    maxDataPoints := 99 }

/-- Witness for C10: `qCPU1` and `qCPU1Other` differ everywhere but in
the first target's name and type, yet get identical responses. -/
theorem c10_first_target_determines_witness :
    queryHandler (fun _ => 11) (.ok qCPU1) = queryHandler (fun _ => 11) (.ok qCPU1Other) :=
  c10_first_target_determines (fun _ => 11) qCPU1 qCPU1Other
    ⟨"CPU1", "A", "timeserie"⟩ ⟨"CPU1", "Z", "timeserie"⟩ [] [⟨"CPU2", "B", "table"⟩]
    rfl rfl rfl rfl
